import Mathlib

/-!
Verification of the Predictive-Maintenance health-monitoring core.

Shallow embedding of the health scoring, root-cause classification, alert
deduplication, dispatch and monitoring-loop logic of the repository.

Real-valued JavaScript arithmetic is embedded as exact rational arithmetic
(`ℚ`); `Math.random()` calls are embedded as explicit parameters `r ∈ [0,1)`
so that the noise terms `(Math.random() - 0.5) * k` become `(r - 1/2) * k`.
Timestamps are integers (milliseconds), as produced by `Date.now()`.
-/

/-- JavaScript `Math.round`: round to nearest integer, half toward `+∞`,
i.e. `⌊x + 1/2⌋` (all values rounded here are nonnegative). -/
def jsRound (q : ℚ) : ℤ := ⌊q + 1/2⌋

/-- JavaScript `Math.round(x * 100) / 100` (round to two decimal places). -/
def jsRound2 (q : ℚ) : ℚ := (jsRound (q * 100) : ℚ) / 100

/-- Temperature normalisation `Math.min(Math.max((temperature - 20) / 80, 0), 1)`
shared by `runPrediction` (backend/routes/machineRoutes.js)
and `simulatePrediction` (prediction controller). -/
def tempNorm (temperature : ℚ) : ℚ := min (max ((temperature - 20) / 80) 0) 1

/-- Vibration normalisation `Math.min(Math.max(vibration / 10, 0), 1)`. -/
def vibNorm (vibration : ℚ) : ℚ := min (max (vibration / 10) 0) 1

/-- Current normalisation `Math.min(Math.max((current - 5) / 25, 0), 1)`. -/
def curNorm (current : ℚ) : ℚ := min (max ((current - 5) / 25) 0) 1

/-- Weighted sum `(tempNorm * 0.35) + (vibNorm * 0.40) + (curNorm * 0.25)` —
identical in both scoring functions. -/
def degradationScore (temperature vibration current : ℚ) : ℚ :=
  tempNorm temperature * 0.35 + vibNorm vibration * 0.40 + curNorm current * 0.25

/-- The unrounded predicted RUL of `runPrediction`:
`Math.max(0, maxRUL * (1 - degradationScore) + (Math.random() - 0.5) * 5)`
with `maxRUL = 125` and `r` the value of the `Math.random()` call. -/
def runPredRawRUL (temperature vibration current r : ℚ) : ℚ :=
  max 0 (125 * (1 - degradationScore temperature vibration current) + (r - 0.5) * 5)

/-- Return value of `runPrediction` in backend/routes/machineRoutes.js. -/
structure RunPredictionResult where
  healthPercentage : ℤ
  rul : ℤ
  status : String
  riskLevel : String
deriving DecidableEq, Repr

/-- Function `runPrediction(temperature, vibration, current)` from
backend/routes/machineRoutes.js (fleet-monitoring scoring path); `r` models
the `Math.random()` call inside the RUL noise term. -/
def runPrediction (temperature vibration current r : ℚ) : RunPredictionResult :=
  let predictedRUL := runPredRawRUL temperature vibration current r
  let healthPercentage := jsRound (predictedRUL / 125 * 100)
  { healthPercentage := healthPercentage
    rul := jsRound (predictedRUL / 4)
    status :=
      if healthPercentage > 70 then "healthy"
      else if healthPercentage ≥ 40 then "warning"
      else "critical"
    riskLevel :=
      if healthPercentage > 70 then "low"
      else if healthPercentage ≥ 40 then "medium"
      else "high" }

/-- The unrounded predicted RUL of `simulatePrediction` (prediction
controller): noise amplitude is `(Math.random() - 0.5) * 10` there. -/
def simRawRUL (temperature vibration current r : ℚ) : ℚ :=
  max 0 (125 * (1 - degradationScore temperature vibration current) + (r - 0.5) * 10)

/-- Return value of `simulatePrediction` in the prediction controller. -/
structure SimPredictionResult where
  predictedRUL : ℚ
  daysRemaining : ℚ
  healthStatus : String
  healthPercentage : ℤ
  confidence : ℚ
deriving DecidableEq, Repr

/-- Function `simulatePrediction(temperature, vibration, current)` from the prediction
controller (manual-prediction path). `r` models the `Math.random()` call in
the RUL noise, `r2` the one in the confidence value. Note that the health
status is decided from the *unrounded* `predictedRUL` (thresholds 80 / 40),
while the returned `predictedRUL` field is rounded to two decimals. -/
def simulatePrediction (temperature vibration current r r2 : ℚ) : SimPredictionResult :=
  let predictedRUL := simRawRUL temperature vibration current r
  let healthStatus :=
    if predictedRUL > 80 then "HEALTHY"
    else if predictedRUL > 40 then "WARNING"
    else "CRITICAL"
  { predictedRUL := jsRound2 predictedRUL
    daysRemaining := jsRound2 (predictedRUL / 4)
    healthStatus := healthStatus
    healthPercentage := jsRound (predictedRUL / 125 * 100)
    confidence := jsRound2 (0.85 + r2 * 0.1) }

/-- Function `getRootCause(status, temperature, vibration, current)` from
backend/routes/machineRoutes.js. -/
def getRootCause (status : String) (temperature vibration current : ℚ) : Option String :=
  if status = "healthy" then none
  else if vibration > 4 then
    some "Bearing degradation detected — abnormal vibration pattern"
  else if temperature > 75 then
    some "Thermal overload — sustained high temperature readings"
  else if current > 20 then
    some "Electrical imbalance — current draw exceeding nominal range"
  else if vibration > 3 then
    some "Mechanical misalignment — vibration frequency shift detected"
  else
    some "Multiple stress factors — combined sensor anomaly detected"

/-!
Alert deduplication (backend/routes/predictionRoutes.js).

The route module keeps `const sentAlerts = new Map()` from alert keys
`` `${machine.machineId}-${recipientEmail}` `` to `{ email, timestamp }`.
We embed the map as an association list from `(machineId, recipient)` pairs
to timestamps (`Date.now()` milliseconds); `Map.get` is first-match lookup
and `Map.set` prepends (so lookup sees the newest binding).
-/

abbrev AlertMap := List ((String × String) × ℤ)

def lookupAlert : AlertMap → String × String → Option ℤ
  | [], _ => none
  | (k, t) :: rest, key => if k = key then some t else lookupAlert rest key

def setAlert (m : AlertMap) (key : String × String) (t : ℤ) : AlertMap :=
  (key, t) :: m

/-- Cooldown `3 * 60 * 1000` ms, used at both dedup sites
(`router.post('/check')` and `startMonitoring`). -/
def alertCooldownMs : ℤ := 3 * 60 * 1000

/-- The dedup check, identical at both sites: `/check` skips when
`lastAlert && lastAlert.timestamp > Date.now() - 3*60*1000`, and the monitor
loop sends when `!lastAlert || lastAlert.timestamp <= threeMinutesAgo`;
both permit a send iff no record exists or `timestamp ≤ now - cooldown`. -/
def shouldSendAlert (m : AlertMap) (key : String × String) (now : ℤ) : Bool :=
  match lookupAlert m key with
  | none => true
  | some t => decide (t ≤ now - alertCooldownMs)

/-- One iteration of the per-recipient loop body in `router.post('/check')`:
consult the dedup map; if it permits, attempt the send (`sendOk` is the
outcome of the external `sendHealthAlert` call) and record the timestamp
only when the send succeeded. Returns the new map and the result status
string pushed into `results`. -/
def checkAlertStep (m : AlertMap) (machineId email : String) (now : ℤ) (sendOk : Bool) :
    AlertMap × String :=
  let key := (machineId, email)
  if shouldSendAlert m key now then
    if sendOk then (setAlert m key now, "sent") else (m, "failed")
  else (m, "skipped")

/-!
The static fleet snapshot and the monitoring loop
(backend/routes/predictionRoutes.js).
-/

/-- One entry of the `getMachines()` array in predictionRoutes.js (the
hardcoded snapshot used by `/check` and the monitor loop; the randomly
generated `sensorHistory` field is omitted — no claim depends on it). -/
structure PRMachine where
  machineId : String
  name : String
  healthScore : ℤ
  rul : ℤ
  status : String
  riskLevel : String
deriving DecidableEq, Repr

/-- The six machines returned by `getMachines()` in predictionRoutes.js. -/
def prMachines : List PRMachine :=
  [ { machineId := "MCH-001", name := "CNC Milling Unit Alpha", healthScore := 87,
      rul := 42, status := "healthy", riskLevel := "low" },
    { machineId := "MCH-002", name := "Hydraulic Press Beta", healthScore := 54,
      rul := 11, status := "warning", riskLevel := "medium" },
    { machineId := "MCH-003", name := "Conveyor System Gamma", healthScore := 28,
      rul := 3, status := "critical", riskLevel := "high" },
    { machineId := "MCH-004", name := "Robotic Arm Delta", healthScore := 92,
      rul := 68, status := "healthy", riskLevel := "low" },
    { machineId := "MCH-005", name := "Injection Molder Epsilon", healthScore := 63,
      rul := 18, status := "warning", riskLevel := "medium" },
    { machineId := "MCH-006", name := "Lathe Machine Zeta", healthScore := 79,
      rul := 35, status := "healthy", riskLevel := "low" } ]

/-- Selection `machines.filter(m => m.status === 'critical' || m.healthScore < 30)` —
the selection used by both `/check` and the monitor loop. -/
def criticalMachines : List PRMachine :=
  prMachines.filter fun m => decide (m.status = "critical" ∨ m.healthScore < 30)

/-- JS method `Set.prototype.add` on `subscribedEmails`: no-op when the element is
already present, otherwise appended in insertion order. -/
def subscribeEmail (subs : List String) (email : String) : List String :=
  if email ∈ subs then subs else subs ++ [email]

/-- The `(machine, recipient)` pairs visited by the nested
`for (const machine of criticalMachines) for (const email of subscribedEmails)`
loops of one monitor tick. -/
def tickPairs (subs : List String) : List (String × String) :=
  criticalMachines.flatMap fun mc => subs.map fun e => (mc.machineId, e)

/-- The per-pair body of the monitor loop: if the dedup check permits, the
send is attempted (`sendOk` gives the external outcome per pair) and the map
is updated only on success. The second component records which pairs had a
send attempted. -/
def tickStep (now : ℤ) (sendOk : String × String → Bool)
    (acc : AlertMap × List (String × String)) (key : String × String) :
    AlertMap × List (String × String) :=
  if shouldSendAlert acc.1 key now then
    (if sendOk key then setAlert acc.1 key now else acc.1, acc.2 ++ [key])
  else acc

/-- Result of one tick of `startMonitoring`'s `setInterval` callback.
`broadcasts` lists the pub/sub events the tick publishes: the loop body
contains no socket publication at all (predictionRoutes.js never touches
the Socket.io layer), so this list is always empty. -/
structure TickResult where
  attempts : List (String × String)
  sentAlerts : AlertMap
  broadcasts : List String
deriving DecidableEq, Repr

/-- One tick of the background monitor (`startMonitoring`): re-read the
static fleet snapshot, keep machines with `status === 'critical' ||
healthScore < 30`, and for each (machine, subscriber) pair run the dedup
check and conditionally send an email. No reading is generated, nothing is
scored, and no broadcast event is published. -/
def monitorTick (subs : List String) (m : AlertMap) (now : ℤ)
    (sendOk : String × String → Bool) : TickResult :=
  if criticalMachines.isEmpty || subs.isEmpty then ⟨[], m, []⟩
  else
    let res := (tickPairs subs).foldl (tickStep now sendOk) (m, [])
    ⟨res.2, res.1, []⟩

/-!
Broadcast section of `app.post('/api/sensor-data')` (main server file)
-/

/-- Observable outcome of the alert/broadcast section of the sensor-data
ingestion handler. -/
structure SensorDataDispatch where
  events : List String
  emailSentFlag : Bool
deriving DecidableEq, Repr

/-- The alert/broadcast tail of `app.post('/api/sensor-data')`, given the
prediction's `health_status` and the outcome of `sendAlertEmail` (which
returns `false` on failure instead of throwing). When the status is not
`NORMAL` the handler creates an alert row, sends the email, records the
outcome in `email_sent`, and emits `new_alert`; in every case it then emits
`machine_update` and `sensor_update`. The emitted events never depend on
the email outcome. -/
def sensorDataDispatch (healthStatus : String) (emailOk : Bool) : SensorDataDispatch :=
  if healthStatus ≠ "NORMAL" then
    { events := ["new_alert", "machine_update", "sensor_update"], emailSentFlag := emailOk }
  else
    { events := ["machine_update", "sensor_update"], emailSentFlag := false }

/-!
Manual-prediction endpoint validation (prediction controller)
-/

/-- The JavaScript request-body values relevant to `makePrediction`'s
validation: a number, a string whose `Number(...)` coercion is the rational
`q` (e.g. `"95"`), a string whose coercion is `NaN` (e.g. `"abc"`), and
`undefined` (missing field). -/
inductive JSValue where
  | jnum (q : ℚ)
  | jstrOfNum (q : ℚ)
  | jstrNonNum (s : String)
  | jundef
deriving DecidableEq, Repr

/-- JS coercion `Number(v)`; `none` models `NaN`. `isNaN(v)` is
`toNumber v = none`. -/
def toNumber : JSValue → Option ℚ
  | .jnum q => some q
  | .jstrOfNum q => some q
  | .jstrNonNum _ => none
  | .jundef => none

def isUndef : JSValue → Bool
  | .jundef => true
  | _ => false

/-- The validation-and-scoring prefix of `makePrediction` in the prediction
controller: reject with HTTP 400 when a field is `undefined` or `isNaN`,
otherwise score the (coerced) values with `simulatePrediction`. Database
writes and the email step are external effects after scoring and are
omitted. -/
def makePredictionCore (temperature vibration current : JSValue) (r r2 : ℚ) :
    Except (ℕ × String) SimPredictionResult :=
  if isUndef temperature || isUndef vibration || isUndef current then
    .error (400, "Missing required fields: temperature, vibration, and current are required")
  else
    match toNumber temperature, toNumber vibration, toNumber current with
    | some tq, some vq, some cq => .ok (simulatePrediction tq vq cq r r2)
    | _, _, _ =>
      .error (400, "Invalid data types: temperature, vibration, and current must be numbers")

/-!
Claim theorems.
-/

/-- C3: for every `(machineId, recipient)` key and every dedup-map state,
the dedup check permits a send iff no record exists for the key or
`now - lastSentAt` is at least the cooldown (180 s = 180000 ms); with a
record at time 0, a check at `+179 s` is suppressed and a check at `+181 s`
is permitted. -/
theorem shouldSendAlert_iff_cooldown_elapsed :
    (∀ (m : AlertMap) (key : String × String) (now : ℤ),
      shouldSendAlert m key now = true ↔
        (lookupAlert m key = none ∨
          ∃ ts, lookupAlert m key = some ts ∧ alertCooldownMs ≤ now - ts)) ∧
    shouldSendAlert [(("MCH-003", "ops@example.com"), 0)] ("MCH-003", "ops@example.com") 179000
      = false ∧
    shouldSendAlert [(("MCH-003", "ops@example.com"), 0)] ("MCH-003", "ops@example.com") 181000
      = true := by
  refine ⟨fun m key now => ?_, by decide, by decide⟩
  unfold shouldSendAlert
  cases h : lookupAlert m key with
  | none => simp
  | some t =>
    simp only [decide_eq_true_eq, Option.some.injEq, reduceCtorEq, false_or]
    constructor
    · intro ht; exact ⟨t, rfl, by omega⟩
    · rintro ⟨ts, hts, hle⟩; omega

/-- Helper for C4: one monitor-loop fold step updates the dedup map only by
`setAlert` on the processed pair, and only when the send succeeded. -/
theorem tickStep_map_cases (now : ℤ) (sendOk : String × String → Bool)
    (acc : AlertMap × List (String × String)) (key : String × String) :
    (tickStep now sendOk acc key).1 =
      if shouldSendAlert acc.1 key now ∧ sendOk key = true then setAlert acc.1 key now
      else acc.1 := by
  by_cases hc : shouldSendAlert acc.1 key now = true
  · by_cases hs : sendOk key = true
    · simp [tickStep, hc, hs]
    · simp [tickStep, hc, hs]
  · simp [tickStep, hc]

/-- Helper for C4: across a whole monitor-loop fold, the dedup record of a
key whose sends fail is left untouched (steps for other keys prepend only
bindings for those other keys). -/
theorem tickFold_lookup_preserved (now : ℤ) (sendOk : String × String → Bool)
    (key : String × String) (hf : sendOk key = false) :
    ∀ (l : List (String × String)) (acc : AlertMap × List (String × String)),
      lookupAlert (l.foldl (tickStep now sendOk) acc).1 key = lookupAlert acc.1 key := by
  intro l
  induction l with
  | nil => intro acc; rfl
  | cons a l ih =>
    intro acc
    rw [List.foldl_cons, ih (tickStep now sendOk acc a)]
    rw [tickStep_map_cases]
    split_ifs with h
    · have hak : ¬ a = key := by
        rintro rfl
        rw [hf] at h
        exact absurd h.2 (by simp)
      simp [setAlert, lookupAlert, hak]
    · rfl

/-- C4: on both dispatch sites — the per-recipient step of
`router.post('/check')` and the per-pair step of the `startMonitoring`
loop — a failed email send leaves the dedup record unchanged (so any later
dedup check behaves exactly as if the failed attempt had never happened;
on `/check` the result records `"failed"`), and the record is written only
on a successful send. Across a whole monitor tick, a key whose sends fail
keeps its record and its future dedup behaviour. -/
theorem checkAlertStep_failure_preserves_record :
    (∀ (m : AlertMap) (mid e : String) (now : ℤ),
      (checkAlertStep m mid e now false).1 = m) ∧
    (∀ (m : AlertMap) (mid e : String) (now later : ℤ),
      shouldSendAlert (checkAlertStep m mid e now false).1 (mid, e) later =
        shouldSendAlert m (mid, e) later) ∧
    (∀ (m : AlertMap) (mid e : String) (now : ℤ),
      shouldSendAlert m (mid, e) now = true →
        (checkAlertStep m mid e now false).2 = "failed") ∧
    (∀ (m : AlertMap) (mid e : String) (now : ℤ),
      shouldSendAlert m (mid, e) now = true →
        (checkAlertStep m mid e now true).1 = setAlert m (mid, e) now ∧
        lookupAlert (checkAlertStep m mid e now true).1 (mid, e) = some now) ∧
    (∀ (now : ℤ) (sendOk : String × String → Bool)
        (acc : AlertMap × List (String × String)) (key : String × String),
      sendOk key = false → (tickStep now sendOk acc key).1 = acc.1) ∧
    (∀ (now : ℤ) (sendOk : String × String → Bool)
        (acc : AlertMap × List (String × String)) (key : String × String),
      shouldSendAlert acc.1 key now = true → sendOk key = true →
        (tickStep now sendOk acc key).1 = setAlert acc.1 key now) ∧
    (∀ (subs : List String) (m : AlertMap) (now : ℤ) (sendOk : String × String → Bool)
        (key : String × String),
      sendOk key = false →
        lookupAlert (monitorTick subs m now sendOk).sentAlerts key = lookupAlert m key) ∧
    (∀ (subs : List String) (m : AlertMap) (now : ℤ) (sendOk : String × String → Bool)
        (key : String × String) (later : ℤ),
      sendOk key = false →
        shouldSendAlert (monitorTick subs m now sendOk).sentAlerts key later =
          shouldSendAlert m key later) := by
  have hmap : ∀ (m : AlertMap) (mid e : String) (now : ℤ),
      (checkAlertStep m mid e now false).1 = m := by
    intro m mid e now
    by_cases h : shouldSendAlert m (mid, e) now = true <;> simp [checkAlertStep, h]
  have htickmap : ∀ (subs : List String) (m : AlertMap) (now : ℤ)
      (sendOk : String × String → Bool) (key : String × String),
      sendOk key = false →
        lookupAlert (monitorTick subs m now sendOk).sentAlerts key = lookupAlert m key := by
    intro subs m now sendOk key hf
    unfold monitorTick
    split_ifs with h
    · rfl
    · exact tickFold_lookup_preserved now sendOk key hf (tickPairs subs) (m, [])
  refine ⟨hmap, fun m mid e now later => by rw [hmap], ?_, ?_, ?_, ?_, htickmap, ?_⟩
  · intro m mid e now h
    simp [checkAlertStep, h]
  · intro m mid e now h
    refine ⟨by simp [checkAlertStep, h], ?_⟩
    simp [checkAlertStep, h, setAlert, lookupAlert]
  · intro now sendOk acc key hf
    rw [tickStep_map_cases]
    split_ifs with h
    · rw [hf] at h
      exact absurd h.2 (by simp)
    · rfl
  · intro now sendOk acc key hc hs
    rw [tickStep_map_cases, if_pos ⟨hc, hs⟩]
  · intro subs m now sendOk key later hf
    unfold shouldSendAlert
    rw [htickmap subs m now sendOk key hf]

/-- Witness for C4 at concrete inputs: on the `/check` step the empty map
permits the send and a successful send records timestamp 0; on the monitor
loop, a tick whose sends fail (with an elapsed-cooldown record at time 5,
so the send really is attempted) leaves the record at 5 and the later dedup
behaviour unchanged. -/
theorem checkAlertStep_failure_preserves_record_witness :
    ((checkAlertStep [] "MCH-003" "ops@example.com" 0 true).1 =
      setAlert [] ("MCH-003", "ops@example.com") 0 ∧
     lookupAlert (checkAlertStep [] "MCH-003" "ops@example.com" 0 true).1
      ("MCH-003", "ops@example.com") = some 0) ∧
    lookupAlert
        (monitorTick ["ops@example.com"] [(("MCH-003", "ops@example.com"), 5)] 1000000
          (fun _ => false)).sentAlerts ("MCH-003", "ops@example.com") =
      lookupAlert [(("MCH-003", "ops@example.com"), 5)] ("MCH-003", "ops@example.com") ∧
    shouldSendAlert
        (monitorTick ["ops@example.com"] [(("MCH-003", "ops@example.com"), 5)] 1000000
          (fun _ => false)).sentAlerts ("MCH-003", "ops@example.com") 1000001 =
      shouldSendAlert [(("MCH-003", "ops@example.com"), 5)] ("MCH-003", "ops@example.com")
        1000001 :=
  ⟨checkAlertStep_failure_preserves_record.2.2.2.1 [] "MCH-003" "ops@example.com" 0 (by decide),
   checkAlertStep_failure_preserves_record.2.2.2.2.2.2.1 ["ops@example.com"]
     [(("MCH-003", "ops@example.com"), 5)] 1000000 (fun _ => false)
     ("MCH-003", "ops@example.com") rfl,
   checkAlertStep_failure_preserves_record.2.2.2.2.2.2.2 ["ops@example.com"]
     [(("MCH-003", "ops@example.com"), 5)] 1000000 (fun _ => false)
     ("MCH-003", "ops@example.com") 1000001 rfl⟩

/-- C6: the root-cause classifier returns `null` exactly for HEALTHY status,
and otherwise evaluates thresholds in the fixed priority order
vibration > 4, temperature > 75, current > 20, vibration > 3, generic
fallback; in particular a non-healthy reading with vibration 5 and
temperature 80 classifies as bearing degradation. -/
theorem getRootCause_priority :
    (∀ t v c, getRootCause "healthy" t v c = none) ∧
    (∀ s t v c, getRootCause s t v c = none → s = "healthy") ∧
    (∀ s t v c, s ≠ "healthy" →
      ((getRootCause s t v c =
          some "Bearing degradation detected — abnormal vibration pattern" ↔ 4 < v) ∧
       (getRootCause s t v c =
          some "Thermal overload — sustained high temperature readings" ↔ v ≤ 4 ∧ 75 < t) ∧
       (getRootCause s t v c =
          some "Electrical imbalance — current draw exceeding nominal range" ↔
            v ≤ 4 ∧ t ≤ 75 ∧ 20 < c) ∧
       (getRootCause s t v c =
          some "Mechanical misalignment — vibration frequency shift detected" ↔
            v ≤ 4 ∧ t ≤ 75 ∧ c ≤ 20 ∧ 3 < v) ∧
       (getRootCause s t v c =
          some "Multiple stress factors — combined sensor anomaly detected" ↔
            v ≤ 4 ∧ t ≤ 75 ∧ c ≤ 20 ∧ v ≤ 3))) ∧
    getRootCause "warning" 80 5 0 =
      some "Bearing degradation detected — abnormal vibration pattern" := by
  refine ⟨fun t v c => by simp [getRootCause], ?_, ?_, ?_⟩
  · intro s t v c h
    by_contra hs
    unfold getRootCause at h
    rw [if_neg hs] at h
    split_ifs at h <;> simp at h
  · intro s t v c hs
    unfold getRootCause
    rw [if_neg hs]
    split_ifs with h1 h2 h3 h4 <;>
      refine ⟨?_, ?_, ?_, ?_, ?_⟩ <;>
      simp only [Option.some.injEq] <;>
      constructor <;>
      intro h <;>
      first
        | (exfalso; revert h; decide)
        | (constructor <;> first | linarith | (constructor <;> first | linarith |
            (constructor <;> linarith)))
        | linarith
        | rfl
        | (exfalso; rcases h with ⟨h, h'⟩ <;> linarith)
        | (exfalso;
           rcases h with ⟨ha, hb⟩ <;>
           first
             | linarith
             | (rcases hb with ⟨hb1, hb2⟩ <;>
                first
                  | linarith
                  | (rcases hb2 with ⟨hb3, hb4⟩ <;> linarith)))
  · norm_num [getRootCause]
    decide

/-- Witness for C6 at a concrete input: a non-healthy status with
vibration 5, temperature 80, current 21 classifies as bearing degradation
(the vibration check wins despite temperature and current also exceeding
their thresholds). -/
theorem getRootCause_priority_witness :
    getRootCause "critical" 80 5 21 =
      some "Bearing degradation detected — abnormal vibration pattern" :=
  ((getRootCause_priority.2.2.1 "critical" 80 5 21 (by decide)).1).mpr (by norm_num)

/-- Helper for C10: the critical-machine selection of the monitor loop
evaluates to the single machine MCH-003. -/
theorem criticalMachines_eq :
    criticalMachines =
      [{ machineId := "MCH-003", name := "Conveyor System Gamma", healthScore := 28,
         rul := 3, status := "critical", riskLevel := "high" }] := by decide

/-- C10: subscribing an already-present email leaves the registry unchanged
(`Set.add` is idempotent), subscription preserves distinctness, and in one
monitoring sweep the visited `(machine, recipient)` pair list has no
duplicates, so each pair is considered for an email at most once. -/
theorem subscribeEmail_idempotent_pairs_unique :
    (∀ subs e, e ∈ subs → subscribeEmail subs e = subs) ∧
    (∀ subs e, subs.Nodup → (subscribeEmail subs e).Nodup) ∧
    (∀ subs : List String, subs.Nodup → (tickPairs subs).Nodup) := by
  refine ⟨fun subs e h => if_pos h, ?_, ?_⟩
  · intro subs e h
    unfold subscribeEmail
    split_ifs with he
    · exact h
    · simp [List.nodup_append, h, he]
  · intro subs h
    have hpairs : tickPairs subs = subs.map fun e => ("MCH-003", e) := by
      simp [tickPairs, criticalMachines_eq]
    have hinj : Function.Injective fun e : String => ("MCH-003", e) := by
      intro a b hab
      exact congrArg Prod.snd hab
    rw [hpairs]
    exact h.map hinj

/-- Witness for C10 at a concrete input: re-subscribing an existing address
is a no-op and the sweep pair list for it has no duplicates. -/
theorem subscribeEmail_idempotent_pairs_unique_witness :
    subscribeEmail ["ops@example.com"] "ops@example.com" = ["ops@example.com"] ∧
    (tickPairs ["ops@example.com"]).Nodup :=
  ⟨subscribeEmail_idempotent_pairs_unique.1 ["ops@example.com"] "ops@example.com" (by decide),
   subscribeEmail_idempotent_pairs_unique.2.2 ["ops@example.com"] (by decide)⟩

/-- C1 counterexample: on the manual-prediction path the status is *not*
determined by `healthPercentage`. The reading (45.6, 3.2, 13) with the noise
term fixed to zero (`r = 1/2`) yields `healthPercentage = 68`, which lies in
`[40, 70]` (so the claim demands WARNING), yet `simulatePrediction` returns
HEALTHY because the unrounded RUL 85 exceeds its 80 threshold. -/
theorem simulatePrediction_not_classified_by_healthPercentage :
    (simulatePrediction (228/5) (16/5) 13 (1/2) (1/2)).healthPercentage = 68 ∧
    ((40 : ℤ) ≤ 68 ∧ (68 : ℤ) ≤ 70) ∧
    (simulatePrediction (228/5) (16/5) 13 (1/2) (1/2)).healthStatus = "HEALTHY" ∧
    (simulatePrediction (228/5) (16/5) 13 (1/2) (1/2)).healthStatus ≠ "WARNING" := by
  have hstat : (simulatePrediction (228/5) (16/5) 13 (1/2) (1/2)).healthStatus = "HEALTHY" := by
    simp only [simulatePrediction, simRawRUL, degradationScore, tempNorm, vibNorm, curNorm]
    norm_num [min_def, max_def]
  refine ⟨?_, by norm_num, hstat, by rw [hstat]; decide⟩
  simp only [simulatePrediction, simRawRUL, degradationScore, tempNorm, vibNorm, curNorm,
    jsRound, jsRound2]
  norm_num [min_def, max_def]

/-- C1 amended: on the fleet-monitoring path (`runPrediction`) status and
risk level are determined exactly by `healthPercentage` with the claimed
thresholds; on the manual-prediction path (`simulatePrediction`) the status
is instead determined by the unrounded predicted RUL with thresholds 80/40,
and no risk level is produced. -/
theorem status_thresholds_per_path :
    (∀ t v c r,
      (((runPrediction t v c r).status = "healthy" ∧
          (runPrediction t v c r).riskLevel = "low") ↔
        70 < (runPrediction t v c r).healthPercentage) ∧
      (((runPrediction t v c r).status = "warning" ∧
          (runPrediction t v c r).riskLevel = "medium") ↔
        (40 ≤ (runPrediction t v c r).healthPercentage ∧
          (runPrediction t v c r).healthPercentage ≤ 70)) ∧
      (((runPrediction t v c r).status = "critical" ∧
          (runPrediction t v c r).riskLevel = "high") ↔
        (runPrediction t v c r).healthPercentage < 40)) ∧
    (∀ t v c r r2,
      ((simulatePrediction t v c r r2).healthStatus = "HEALTHY" ↔ 80 < simRawRUL t v c r) ∧
      ((simulatePrediction t v c r r2).healthStatus = "WARNING" ↔
        (40 < simRawRUL t v c r ∧ simRawRUL t v c r ≤ 80)) ∧
      ((simulatePrediction t v c r r2).healthStatus = "CRITICAL" ↔ simRawRUL t v c r ≤ 40)) := by
  constructor
  · intro t v c r
    simp only [runPrediction]
    split_ifs with h1 h2 <;>
      refine ⟨?_, ?_, ?_⟩ <;> simp <;> omega
  · intro t v c r r2
    simp only [simulatePrediction]
    split_ifs with h1 h2 <;>
      push_neg at * <;>
      refine ⟨?_, ?_, ?_⟩ <;>
      simp <;>
      first
        | linarith
        | (intro h; linarith)
        | (constructor <;> linarith)
        | (intro h; exfalso; linarith)
        | (rintro ⟨ha, hb⟩; linarith)

/-- Helper: each normalised sensor value lies in `[0, 1]`. -/
theorem norm01_mem (x : ℚ) : 0 ≤ min (max x 0) 1 ∧ min (max x 0) 1 ≤ 1 :=
  ⟨le_min (le_max_right x 0) zero_le_one, min_le_right _ _⟩

/-- Helper: the degradation score lies in `[0, 1]`. -/
theorem degradationScore_mem (t v c : ℚ) :
    0 ≤ degradationScore t v c ∧ degradationScore t v c ≤ 1 := by
  have h1 := norm01_mem ((t - 20) / 80)
  have h2 := norm01_mem (v / 10)
  have h3 := norm01_mem ((c - 5) / 25)
  unfold degradationScore tempNorm vibNorm curNorm
  constructor <;> nlinarith [h1.1, h1.2, h2.1, h2.2, h3.1, h3.2]

/-- Helper: the raw RUL of `runPrediction` lies in `[0, 127.5)` for noise
drawn from `r ∈ [0, 1)`, and in `[0, 125]` when the noise is nonpositive. -/
theorem runPredRawRUL_bounds (t v c r : ℚ) (h0 : 0 ≤ r) (h1 : r < 1) :
    (0 ≤ runPredRawRUL t v c r ∧ runPredRawRUL t v c r < 127.5) ∧
    (r ≤ 1/2 → runPredRawRUL t v c r ≤ 125) := by
  have hd := degradationScore_mem t v c
  unfold runPredRawRUL
  refine ⟨⟨le_max_left 0 _, ?_⟩, fun hr => ?_⟩
  · rw [max_lt_iff]
    constructor <;> nlinarith [hd.1, hd.2]
  · rw [max_le_iff]
    constructor <;> nlinarith [hd.1, hd.2]

/-- Helper: the raw RUL of `simulatePrediction` lies in `[0, 130)` for
noise drawn from `r ∈ [0, 1)`, and in `[0, 125]` for nonpositive noise. -/
theorem simRawRUL_bounds (t v c r : ℚ) (h0 : 0 ≤ r) (h1 : r < 1) :
    (0 ≤ simRawRUL t v c r ∧ simRawRUL t v c r < 130) ∧
    (r ≤ 1/2 → simRawRUL t v c r ≤ 125) := by
  have hd := degradationScore_mem t v c
  unfold simRawRUL
  refine ⟨⟨le_max_left 0 _, ?_⟩, fun hr => ?_⟩
  · rw [max_lt_iff]
    constructor <;> nlinarith [hd.1, hd.2]
  · rw [max_le_iff]
    constructor <;> nlinarith [hd.1, hd.2]

/-- Helper: the health percentage field of `runPrediction` is the rounded
percentage of the raw RUL. -/
theorem runPrediction_healthPercentage_def (t v c r : ℚ) :
    (runPrediction t v c r).healthPercentage =
      jsRound (runPredRawRUL t v c r / 125 * 100) := rfl

/-- Helper: the health percentage field of `simulatePrediction` is the
rounded percentage of the raw RUL. -/
theorem simulatePrediction_healthPercentage_def (t v c r r2 : ℚ) :
    (simulatePrediction t v c r r2).healthPercentage =
      jsRound (simRawRUL t v c r / 125 * 100) := rfl

/-- C2 counterexample: `healthPercentage` is *not* always within `[0, 100]`.
For the all-nominal reading (20, 0, 5) the degradation score is 0, and the
noise value 2.4 (from `r = 49/50 ∈ [0, 1)`) lifts the raw RUL to 127.4, so
`healthPercentage = round(127.4 / 125 * 100) = 102 > 100`. -/
theorem runPrediction_healthPercentage_exceeds_100 :
    ((0 : ℚ) ≤ 49/50 ∧ (49/50 : ℚ) < 1) ∧
    (runPrediction 20 0 5 (49/50)).healthPercentage = 102 ∧
    ¬ ((runPrediction 20 0 5 (49/50)).healthPercentage ≤ 100) := by
  have h : (runPrediction 20 0 5 (49/50)).healthPercentage = 102 := by
    simp only [runPrediction, runPredRawRUL, degradationScore, tempNorm, vibNorm, curNorm,
      jsRound]
    norm_num [min_def, max_def]
  exact ⟨by norm_num, h, by rw [h]; norm_num⟩

/-- C2 amended: for every reading and every noise draw `r ∈ [0, 1)` the
health percentage lies in `[0, 102]` on the fleet path and `[0, 104]` on
the manual path; it stays within `[0, 100]` whenever the noise term is
nonpositive (`r ≤ 1/2`), so only the positive half of the noise range can
push it above 100. -/
theorem healthPercentage_bounds (t v c r r2 : ℚ) (h0 : 0 ≤ r) (h1 : r < 1) :
    (0 ≤ (runPrediction t v c r).healthPercentage ∧
      (runPrediction t v c r).healthPercentage ≤ 102) ∧
    (0 ≤ (simulatePrediction t v c r r2).healthPercentage ∧
      (simulatePrediction t v c r r2).healthPercentage ≤ 104) ∧
    (r ≤ 1/2 →
      (runPrediction t v c r).healthPercentage ≤ 100 ∧
      (simulatePrediction t v c r r2).healthPercentage ≤ 100) := by
  have hrb := runPredRawRUL_bounds t v c r h0 h1
  have hsb := simRawRUL_bounds t v c r h0 h1
  rw [runPrediction_healthPercentage_def, simulatePrediction_healthPercentage_def]
  unfold jsRound
  refine ⟨⟨?_, ?_⟩, ⟨?_, ?_⟩, fun hr => ⟨?_, ?_⟩⟩
  · rw [Int.le_floor]
    push_cast
    nlinarith [hrb.1.1]
  · have : (⌊runPredRawRUL t v c r / 125 * 100 + 1/2⌋ : ℤ) < 103 := by
      rw [Int.floor_lt]
      push_cast
      nlinarith [hrb.1.2]
    omega
  · rw [Int.le_floor]
    push_cast
    nlinarith [hsb.1.1]
  · have : (⌊simRawRUL t v c r / 125 * 100 + 1/2⌋ : ℤ) < 105 := by
      rw [Int.floor_lt]
      push_cast
      nlinarith [hsb.1.2]
    omega
  · have : (⌊runPredRawRUL t v c r / 125 * 100 + 1/2⌋ : ℤ) < 101 := by
      rw [Int.floor_lt]
      push_cast
      nlinarith [hrb.2 hr]
    omega
  · have : (⌊simRawRUL t v c r / 125 * 100 + 1/2⌋ : ℤ) < 101 := by
      rw [Int.floor_lt]
      push_cast
      nlinarith [hsb.2 hr]
    omega

/-- Witness for C2 amended at a concrete input (`r = 1/2`, the zero-noise
draw). -/
theorem healthPercentage_bounds_witness :
    0 ≤ (runPrediction 95 2 12 (1/2)).healthPercentage ∧
    (runPrediction 95 2 12 (1/2)).healthPercentage ≤ 102 :=
  (healthPercentage_bounds 95 2 12 (1/2) (1/2) (by norm_num) (by norm_num)).1

/-- Helper for C5/C9: every pair whose send is attempted during the fold of
a monitor tick comes from the accumulator or from the processed pair list. -/
theorem tickFold_attempts_subset (now : ℤ) (sendOk : String × String → Bool) :
    ∀ (l : List (String × String)) (acc : AlertMap × List (String × String))
      (p : String × String),
      p ∈ (l.foldl (tickStep now sendOk) acc).2 → p ∈ acc.2 ∨ p ∈ l := by
  intro l
  induction l with
  | nil => exact fun acc p h => Or.inl h
  | cons a l ih =>
    intro acc p h
    rcases ih (tickStep now sendOk acc a) p h with h' | h'
    · by_cases hc : shouldSendAlert acc.1 a now = true
      · simp only [tickStep, hc, if_true] at h'
        rcases List.mem_append.mp h' with h'' | h''
        · exact Or.inl h''
        · have : p = a := by simpa using h''
          exact Or.inr (this ▸ List.mem_cons_self a l)
      · simp only [tickStep, hc, if_false] at h'
        exact Or.inl h'
    · exact Or.inr (List.mem_cons_of_mem a h')

/-- C5 counterexample: on a monitor tick with one subscriber, the machine
MCH-002 — whose snapshot status is `warning`, hence not healthy — has no
send attempted for it (only the critical MCH-003 is dispatched), and the
tick publishes no broadcast event at all (in particular no
`machine_update`). -/
theorem monitorTick_ignores_warning_machines :
    ((prMachines.filter fun m => decide (m.machineId = "MCH-002")).map PRMachine.status =
      ["warning"]) ∧
    (monitorTick ["ops@example.com"] [] 0 (fun _ => true)).attempts =
      [("MCH-003", "ops@example.com")] ∧
    (monitorTick ["ops@example.com"] [] 0 (fun _ => true)).broadcasts = [] := by decide

/-- C5 amended: on every tick the monitor loop publishes no broadcast
events, and a send is attempted only for pairs whose machine comes from the
static fleet snapshot with `status === 'critical' || healthScore < 30`
(WARNING machines with health at or above 30 are never dispatched) and
whose recipient is a subscriber; no sensor reading is generated and no
scoring function is invoked on this path. -/
theorem monitorTick_spec (subs : List String) (m : AlertMap) (now : ℤ)
    (sendOk : String × String → Bool) :
    (monitorTick subs m now sendOk).broadcasts = [] ∧
    (∀ p ∈ (monitorTick subs m now sendOk).attempts,
      (∃ mc ∈ prMachines, mc.machineId = p.1 ∧
        (mc.status = "critical" ∨ mc.healthScore < 30)) ∧ p.2 ∈ subs) := by
  constructor
  · unfold monitorTick
    split_ifs <;> rfl
  · intro p hp
    unfold monitorTick at hp
    split_ifs at hp with h
    · simp at hp
    · rcases tickFold_attempts_subset now sendOk (tickPairs subs) (m, []) p hp with h' | h'
      · simp at h'
      · unfold tickPairs at h'
        rcases List.mem_flatMap.mp h' with ⟨mc, hmc, hmem⟩
        rcases List.mem_map.mp hmem with ⟨e, he, rfl⟩
        unfold criticalMachines at hmc
        have hf := List.mem_filter.mp hmc
        exact ⟨⟨mc, hf.1, rfl, of_decide_eq_true hf.2⟩, he⟩

/-- Witness for C5 amended at a concrete tick: the attempted pair belongs
to a critical-or-low-health machine and a subscriber. -/
theorem monitorTick_spec_witness :
    (monitorTick ["ops@example.com"] [] 0 (fun _ => true)).broadcasts = [] ∧
    ((∃ mc ∈ prMachines, mc.machineId = "MCH-003" ∧
        (mc.status = "critical" ∨ mc.healthScore < 30)) ∧
      "ops@example.com" ∈ ["ops@example.com"]) :=
  ⟨(monitorTick_spec ["ops@example.com"] [] 0 (fun _ => true)).1,
   (monitorTick_spec ["ops@example.com"] [] 0 (fun _ => true)).2
     ("MCH-003", "ops@example.com") (by decide)⟩

/-- C7 counterexample: for the reading (95, 2, 12) with the noise term fixed
to zero (`r = 1/2`), the degradation score is 0.478125 — more than 0.05 away
from the claimed ≈0.328, which is only the temperature term — the raw RUL is
65.234375 (not ≈84, off by more than 5), and the health percentage is 52
(not ≈67, off by more than 5). -/
theorem scenarioB_claimed_numbers_wrong :
    degradationScore 95 2 12 = 153/320 ∧
    0.328 + 1/20 < degradationScore 95 2 12 ∧
    runPredRawRUL 95 2 12 (1/2) = 4175/64 ∧
    runPredRawRUL 95 2 12 (1/2) < 84 - 5 ∧
    (runPrediction 95 2 12 (1/2)).healthPercentage = 52 ∧
    (runPrediction 95 2 12 (1/2)).healthPercentage < 67 - 5 := by
  have hds : degradationScore 95 2 12 = 153/320 := by
    simp only [degradationScore, tempNorm, vibNorm, curNorm]
    norm_num [min_def, max_def]
  have hrul : runPredRawRUL 95 2 12 (1/2) = 4175/64 := by
    simp only [runPredRawRUL, hds]
    norm_num [max_def]
  have hhp : (runPrediction 95 2 12 (1/2)).healthPercentage = 52 := by
    rw [runPrediction_healthPercentage_def, hrul]
    norm_num [jsRound]
  refine ⟨hds, by rw [hds]; norm_num, hrul, by rw [hrul]; norm_num, hhp, by rw [hhp]; norm_num⟩

/-- C7 amended: for the reading (95, 2, 12) with the noise fixed to zero,
`tempNorm = 0.9375` as claimed, but the degradation score is 0.478125, the
raw predicted RUL is 65.234375, and the health percentage is 52 — while the
resulting classification is indeed WARNING with medium risk (and the manual
path agrees on WARNING). -/
theorem scenarioB_actual_values :
    tempNorm 95 = 0.9375 ∧
    degradationScore 95 2 12 = 0.478125 ∧
    runPredRawRUL 95 2 12 (1/2) = 65.234375 ∧
    (runPrediction 95 2 12 (1/2)).healthPercentage = 52 ∧
    (runPrediction 95 2 12 (1/2)).status = "warning" ∧
    (runPrediction 95 2 12 (1/2)).riskLevel = "medium" ∧
    (simulatePrediction 95 2 12 (1/2) (1/2)).healthStatus = "WARNING" := by
  refine ⟨?_, ?_, ?_, ?_, ?_, ?_, ?_⟩ <;>
    simp only [runPrediction, simulatePrediction, runPredRawRUL, simRawRUL, degradationScore,
      tempNorm, vibNorm, curNorm, jsRound] <;>
    norm_num [min_def, max_def]

/-- C8 counterexample: a request whose temperature field is the *string*
`"95"` (a string value, hence non-numeric in the claim's sense) is not
rejected: JavaScript's `isNaN` coerces it, validation passes, and the value
is silently scored as the number 95. -/
theorem makePrediction_accepts_numeric_string :
    makePredictionCore (JSValue.jstrOfNum 95) (JSValue.jnum 2) (JSValue.jnum 12) (1/2) (1/2) =
      Except.ok (simulatePrediction 95 2 12 (1/2) (1/2)) := rfl

/-- C8 amended: the manual-prediction endpoint rejects with HTTP 400, before
any scoring, exactly those requests in which a field is missing
(`undefined`) or its `Number` coercion is `NaN` (e.g. a non-numeric string);
but string values that parse as numbers are not rejected — they are
silently coerced and scored. -/
theorem makePrediction_validation_spec :
    (∀ t v c r r2, (isUndef t || isUndef v || isUndef c) = true →
      makePredictionCore t v c r r2 =
        .error (400, "Missing required fields: temperature, vibration, and current are required")) ∧
    (∀ t v c r r2, (isUndef t || isUndef v || isUndef c) = false →
      (toNumber t = none ∨ toNumber v = none ∨ toNumber c = none) →
      makePredictionCore t v c r r2 =
        .error (400, "Invalid data types: temperature, vibration, and current must be numbers")) ∧
    (∀ t v c r r2 tq vq cq, toNumber t = some tq → toNumber v = some vq →
      toNumber c = some cq →
      makePredictionCore t v c r r2 = .ok (simulatePrediction tq vq cq r r2)) := by
  refine ⟨?_, ?_, ?_⟩
  · intro t v c r r2 h
    simp [makePredictionCore, h]
  · intro t v c r r2 hU hN
    cases t <;> cases v <;> cases c <;>
      simp_all [makePredictionCore, isUndef, toNumber]
  · intro t v c r r2 tq vq cq ht hv hc
    cases t <;> cases v <;> cases c <;>
      simp_all [makePredictionCore, isUndef, toNumber]

/-- Witness for C8 amended at concrete inputs: a missing field is rejected
with the 400 message, and a non-numeric string is rejected with the 400
type message. -/
theorem makePrediction_validation_spec_witness :
    makePredictionCore JSValue.jundef (JSValue.jnum 2) (JSValue.jnum 12) (1/2) (1/2) =
      .error (400, "Missing required fields: temperature, vibration, and current are required") ∧
    makePredictionCore (JSValue.jstrNonNum "abc") (JSValue.jnum 2) (JSValue.jnum 12) (1/2) (1/2) =
      .error (400, "Invalid data types: temperature, vibration, and current must be numbers") :=
  ⟨makePrediction_validation_spec.1 JSValue.jundef (JSValue.jnum 2) (JSValue.jnum 12)
      (1/2) (1/2) (by decide),
   makePrediction_validation_spec.2.1 (JSValue.jstrNonNum "abc") (JSValue.jnum 2)
      (JSValue.jnum 12) (1/2) (1/2) (by decide) (Or.inl rfl)⟩

/-- C9 counterexample: on the monitor-loop path, a tick that evaluates the
non-healthy machine MCH-003 and whose email send *fails* publishes no
broadcast event at all — no `new_alert` and no `machine_update` — so the
claimed "broadcast regardless of email outcome" does not hold on this path
(the loop never touches the pub/sub layer). -/
theorem monitorTick_failed_send_publishes_no_broadcast :
    ((prMachines.filter fun m => decide (m.machineId = "MCH-003")).map PRMachine.status =
      ["critical"]) ∧
    (monitorTick ["ops@example.com"] [] 0 (fun _ => false)).attempts =
      [("MCH-003", "ops@example.com")] ∧
    (monitorTick ["ops@example.com"] [] 0 (fun _ => false)).sentAlerts = [] ∧
    (monitorTick ["ops@example.com"] [] 0 (fun _ => false)).broadcasts = [] := by decide

/-- C9 amended: on the sensor-data ingestion path the broadcast events are
published independently of the email outcome — `machine_update` always,
`new_alert` exactly when the status is not NORMAL, and the event list does
not depend on whether the email send succeeded; the background monitor
loop, by contrast, publishes no broadcast events at all. -/
theorem broadcast_independent_of_email :
    (∀ s ok, "machine_update" ∈ (sensorDataDispatch s ok).events) ∧
    (∀ s ok, s ≠ "NORMAL" → "new_alert" ∈ (sensorDataDispatch s ok).events) ∧
    (∀ s, (sensorDataDispatch s true).events = (sensorDataDispatch s false).events) ∧
    (∀ subs m now sendOk, (monitorTick subs m now sendOk).broadcasts = []) := by
  refine ⟨?_, ?_, ?_, ?_⟩
  · intro s ok
    unfold sensorDataDispatch
    split_ifs <;> simp
  · intro s ok h
    simp [sensorDataDispatch, h]
  · intro s
    unfold sensorDataDispatch
    split_ifs <;> rfl
  · intro subs m now sendOk
    unfold monitorTick
    split_ifs <;> rfl

/-- Witness for C9 amended at a concrete input: a CRITICAL evaluation with
a failed email still lists `new_alert` on the sensor-data path. -/
theorem broadcast_independent_of_email_witness :
    "new_alert" ∈ (sensorDataDispatch "CRITICAL" false).events :=
  broadcast_independent_of_email.2.1 "CRITICAL" false (by decide)
